import Mathlib

/-!
Verification development for the quick-labs multi-service Docker lab
(`labs/docker/multi-service`): two Go HTTP services, an upstream
greeting service (service-a) and a downstream orchestrator (service-b).

The embedding below is a shallow model of `service-a/main.go` and
`service-b/main.go`.  Go strings are modelled as Lean `String`s; where
the code works on the raw bytes of a string (`[]byte(s)`, `s[:2]`,
`len(s)`) we work on the corresponding list of scalar values
(`strBytes`, `List Nat`), an injective encoding that coincides with the
UTF-8 bytes on the ASCII data this program handles.  Wall-clock time is
modelled as an abstract `Nat` tick, UUID generation as an explicit
`requestID` parameter (the handler receives the freshly minted value),
and the downstream service's outbound HTTP call as an explicit
`UpstreamOutcome` argument describing which stage of the call succeeded
or failed.
-/

set_option autoImplicit false

namespace QuickLabs

/-! ### Byte-level primitives (crypto/subtle, Go standard library)

`service-a/main.go` line 79 calls `subtle.ConstantTimeCompare`.  The Go
standard-library source is:

    func ConstantTimeCompare(x, y []byte) int \x7b
        if len(x) != len(y) \x7b return 0 \x7d
        var v byte
        for i := 0; i < len(x); i++ \x7b v |= x[i] ^ y[i] \x7d
        return ConstantTimeByteEq(v, 0)
    \x7d

    func ConstantTimeByteEq(x, y uint8) int \x7b
        return int((uint32(x^y) - 1) >> 31)
    \x7d
-/

/-- Go `subtle.ConstantTimeByteEq`: the `uint32` subtraction wraps
modulo `2 ^ 32`, rendered on `Nat` by adding `2 ^ 32 - 1` and reducing. -/
def constantTimeByteEq (x y : Nat) : Nat :=
  (((x ^^^ y) + (2 ^ 32 - 1)) % 2 ^ 32) >>> 31

/-- Go `subtle.ConstantTimeCompare` on byte sequences: with equal
lengths, the loop ORs together the XORs of all positions (never exiting
early), then tests the accumulator against zero. -/
def constantTimeCompare (x y : List Nat) : Nat :=
  if x.length ≠ y.length then 0
  else constantTimeByteEq ((x.zip y).foldl (fun v p => v ||| (p.1 ^^^ p.2)) 0) 0

/-- Instrumented compare loop: returns the accumulator together with the
number of loop iterations executed, mirroring
`for i := 0; i < len(x); i++` one iteration per element. -/
def ctLoop : List (Nat × Nat) → Nat → Nat × Nat
  | [], v => (v, 0)
  | p :: ps, v =>
    let r := ctLoop ps (v ||| (p.1 ^^^ p.2))
    (r.1, r.2 + 1)

/-- `constantTimeCompare` instrumented with a cost: the second component
counts the byte-comparison loop iterations actually executed. -/
def constantTimeCompareTimed (x y : List Nat) : Nat × Nat :=
  if x.length ≠ y.length then (0, 0)
  else
    let r := ctLoop (x.zip y) 0
    (constantTimeByteEq r.1 0, r.2)

/-- The scalar-value sequence of a string, standing in for Go's
`[]byte(s)` (injective, and equal to the UTF-8 bytes on ASCII data). -/
def strBytes (s : String) : List Nat := s.toList.map Char.toNat

/-! ### HTTP model -/

/-- An inbound HTTP request as the handlers see it: method, URL path,
headers, client address, and the request-scoped `context.Context`
modelled as an association list of string keys to string values (the
only kind of value this program stores in a context). -/
structure Request where
  method : String
  path : String
  headers : List (String × String)
  remoteAddr : String
  ctx : List (String × String)
deriving DecidableEq

/-- Go `r.Header.Get(k)`: the first value for the key, or `""` when the
header is absent. -/
def headerGet (hs : List (String × String)) (k : String) : String :=
  match hs.find? (fun p => p.1 == k) with
  | some p => p.2
  | none => ""

/-- Go `ctx.Value(k)` restricted to the string-keyed string values this
program stores: `none` models the `nil` interface result. -/
def ctxValue (ctx : List (String × String)) (k : String) : Option String :=
  (ctx.find? (fun p => p.1 == k)).map (fun p => p.2)

/-- Go `context.WithValue(r.Context(), "request_id", rid)` followed by
`r.WithContext(...)`: the new binding shadows older ones. -/
def withRequestId (rid : String) (r : Request) : Request :=
  { r with ctx := ("request_id", rid) :: r.ctx }

/-- service-a's `Response` struct as JSON-encoded: message, request_id,
timestamp. -/
structure GreetBody where
  message : String
  request_id : String
  timestamp : Nat
deriving DecidableEq

/-- service-b's `Response` struct as JSON-encoded: service_a_message,
service_b_message, request_id, timestamp. -/
structure ProcessBody where
  service_a_message : String
  service_b_message : String
  request_id : String
  timestamp : Nat
deriving DecidableEq

/-- The health handlers' `map[string]string` status payload. -/
structure HealthBody where
  status : String
  timestamp : Nat
  request_id : String
  server_port : String
deriving DecidableEq

/-- A response body: plain text (from `http.Error`) or one of the three
JSON payload shapes the services encode. -/
inductive Body where
  | text (s : String)
  | greetJson (g : GreetBody)
  | processJson (p : ProcessBody)
  | healthJson (h : HealthBody)
deriving DecidableEq

/-- The response written to the `http.ResponseWriter`. -/
structure HttpResponse where
  status : Nat
  headers : List (String × String)
  body : Body
deriving DecidableEq

/-- Outcome of running a handler: a written response, or a Go runtime
panic (which net/http recovers by aborting the connection — no status
line or body is ever sent). -/
inductive HandlerResult where
  | ok (resp : HttpResponse)
  | panicked (msg : String)
deriving DecidableEq

/-- The Go runtime's message for a failed type assertion `.(string)` on
a `nil` interface value. -/
def nilStringAssertionMsg : String :=
  "interface conversion: interface \x7b\x7d is nil, not string"

/-- Go `http.Error(w, msg, code)`: text/plain headers, the given status,
and the message followed by a newline.  Note: no `X-Request-ID` header
is set on this path. -/
def httpError (msg : String) (code : Nat) : HttpResponse :=
  { status := code
    headers := [("Content-Type", "text/plain; charset=utf-8"),
                ("X-Content-Type-Options", "nosniff")]
    body := .text (msg ++ "\n") }

/-! ### service-a (upstream greeting service) -/

/-- service-a `Config` (the `LogLevel` field only tunes logging and is
omitted). -/
structure ConfigA where
  Port : String
  AuthKey : String
deriving DecidableEq

/-- service-a `main`: environment loading with defaulting —
`PORT` falls back to `"8080"`, `AUTH_KEY` to `"default-secret-key"`. -/
def loadConfigA (envPort envAuthKey : String) : ConfigA :=
  { Port := if envPort = "" then "8080" else envPort
    AuthKey := if envAuthKey = "" then "default-secret-key" else envAuthKey }

/-- service-a `authMiddleware` (lines 62-102): mint a request id, attach
it to the request context, read `X-Auth-Key`, and compare it against the
configured secret with `subtle.ConstantTimeCompare`; on mismatch write
`http.Error(w, "Unauthorized", 401)` and return, otherwise run the
wrapped handler on the context-carrying request. -/
def authMiddleware (cfg : ConfigA) (requestID : String)
    (next : Request → HandlerResult) (r : Request) : HandlerResult :=
  let r' := withRequestId requestID r
  let authKey := headerGet r.headers "X-Auth-Key"
  if constantTimeCompare (strBytes authKey) (strBytes cfg.AuthKey) ≠ 1 then
    .ok (httpError "Unauthorized" 401)
  else
    next r'

/-- The 200 response `handleGreet` writes: JSON content type, the
request id echoed in the `X-Request-ID` header, and the `Response`
struct as body.  (Encoding this struct with `json.NewEncoder` cannot
fail, so the encoder's error branch is unreachable.) -/
def greetOkResponse (rid : String) (now : Nat) : HttpResponse :=
  { status := 200
    headers := [("Content-Type", "application/json"), ("X-Request-ID", rid)]
    body := .greetJson { message := "Hello from Service A!", request_id := rid, timestamp := now } }

/-- service-a `handleGreet` (lines 112-154): read the request id back
out of the context with the unchecked assertion
`r.Context().Value("request_id").(string)` — a panic if absent — then
write the greeting response. -/
def handleGreet (now : Nat) (r : Request) : HandlerResult :=
  match ctxValue r.ctx "request_id" with
  | none => .panicked nilStringAssertionMsg
  | some requestID => .ok (greetOkResponse requestID now)

/-- The 200 response both `handleHealth` handlers write (the body is a
`map[string]string`; field order in the JSON is irrelevant). -/
def healthResponse (port rid : String) (now : Nat) : HttpResponse :=
  { status := 200
    headers := [("Content-Type", "application/json")]
    body := .healthJson { status := "healthy", timestamp := now, request_id := rid, server_port := port } }

/-- `handleHealth` (identical in both services): mint a fresh request
id, build the status map, write 200.  No authentication check and no
outbound call — the result depends only on the configured port, the
fresh id and the clock. -/
def handleHealth (port requestID : String) (now : Nat) : HandlerResult :=
  .ok (healthResponse port requestID now)

/-- service-a request dispatch (`mux.HandleFunc` lines 56-57): `/greet`
goes through `authMiddleware` into `handleGreet`, `/health` to
`handleHealth`, anything else to net/http's 404. -/
def serviceA_handle (cfg : ConfigA) (requestID : String) (now : Nat) (r : Request) :
    HandlerResult :=
  if r.path = "/greet" then authMiddleware cfg requestID (handleGreet now) r
  else if r.path = "/health" then handleHealth cfg.Port requestID now
  else .ok (httpError "404 page not found" 404)

/-! ### service-b (downstream orchestrator) -/

/-- service-b `Config` (again minus the log level). -/
structure ConfigB where
  Port : String
  ServiceAURL : String
  ServiceAAuthKey : String
deriving DecidableEq

/-- service-b `main`: environment loading with defaulting — `PORT` falls
back to `"8081"`, `SERVICE_A_URL` to `"http://service-a:8080"`,
`SERVICE_A_AUTH_KEY` to `"default-secret-key"`. -/
def loadConfigB (envPort envURL envAuthKey : String) : ConfigB :=
  { Port := if envPort = "" then "8081" else envPort
    ServiceAURL := if envURL = "" then "http://service-a:8080" else envURL
    ServiceAAuthKey := if envAuthKey = "" then "default-secret-key" else envAuthKey }

/-- Result of reading and decoding the upstream response body:
`io.ReadAll` may fail, and otherwise `json.Unmarshal` yields either a
decoded `ServiceAResponse` or an error (`bytes none`). -/
inductive ReadOutcome where
  | readError
  | bytes (parsed : Option GreetBody)
deriving DecidableEq

/-- The downstream `http.Client.Do` call to service-a, stage by stage:
`reqError` — `http.NewRequestWithContext` itself failed;
`dispatchError` — the dispatch failed (connection refused, timeout);
`resp status body` — a response arrived with the given status code and
body-read outcome. -/
inductive UpstreamOutcome where
  | reqError
  | dispatchError
  | resp (status : Nat) (body : ReadOutcome)
deriving DecidableEq

/-- service-b `handleError` (lines 180-195): recover the request id with
the unchecked assertion `r.Context().Value("request_id").(string)` —
panicking when the context carries no `"request_id"` value — then log
and write `http.Error(w, logMessage, statusCode)`. -/
def handleError (r : Request) (logMessage : String) (statusCode : Nat) : HandlerResult :=
  match ctxValue r.ctx "request_id" with
  | none => .panicked nilStringAssertionMsg
  | some _ => .ok (httpError logMessage statusCode)

/-- The 200 response `handleProcess` writes on success. -/
def processOkResponse (serviceAMessage rid : String) (now : Nat) : HttpResponse :=
  { status := 200
    headers := [("Content-Type", "application/json"), ("X-Request-ID", rid)]
    body := .processJson { service_a_message := serviceAMessage
                           service_b_message := "Hello from Service B!"
                           request_id := rid
                           timestamp := now } }

/-- service-b `handleProcess` (lines 75-178): mint a request id, build
`ctx := context.WithValue(r.Context(), "request_id", requestID)` — used
only for the outbound `http.NewRequestWithContext`; crucially `r` is
never reassigned (`r = r.WithContext(ctx)` is missing), so every
`handleError` call below still sees the original inbound context `r.ctx`.
The `cfg` fields feed the outbound request (URL, `X-Auth-Key`,
`X-Request-ID` headers), whose outcome arrives as `upstream`.  On a 200
with a decodable body, merge the upstream message with the fixed local
message into the combined response. -/
def handleProcess (cfg : ConfigB) (requestID : String) (now : Nat) (r : Request)
    (upstream : UpstreamOutcome) : HandlerResult :=
  match upstream with
  | .reqError => handleError r "Failed to create request to Service A" 500
  | .dispatchError => handleError r "Failed to call Service A" 503
  | .resp status bodyRead =>
    if status ≠ 200 then handleError r "Service A request failed" status
    else
      match bodyRead with
      | .readError => handleError r "Failed to read Service A response" 500
      | .bytes none => handleError r "Failed to parse Service A response" 500
      | .bytes (some g) => .ok (processOkResponse g.message requestID now)

/-- service-b request dispatch (`mux.HandleFunc` lines 69-70). -/
def serviceB_handle (cfg : ConfigB) (requestID : String) (now : Nat) (r : Request)
    (upstream : UpstreamOutcome) : HandlerResult :=
  if r.path = "/process" then handleProcess cfg requestID now r upstream
  else if r.path = "/health" then handleHealth cfg.Port requestID now
  else .ok (httpError "404 page not found" 404)

/-- Go `maskAuthKey` (identical in both services), on the string's
bytes: `len(key) > 4` yields `key[:2] + "****" + key[len(key)-2:]`,
otherwise the fixed mask `"****"`. -/
def starMask : List Nat := strBytes "****"

/-- The masking function itself. -/
def maskAuthKey (key : List Nat) : List Nat :=
  if key.length > 4 then key.take 2 ++ starMask ++ key.drop (key.length - 2)
  else starMask

/-- Classifies the `UpstreamOutcome`s that are Outbound Call Errors:
everything except a 200 response with a decodable body. -/
def isOutboundError : UpstreamOutcome → Bool
  | .reqError => true
  | .dispatchError => true
  | .resp status bodyRead =>
    (status != 200) ||
      (match bodyRead with
       | .readError => true
       | .bytes none => true
       | .bytes (some _) => false)

end QuickLabs

namespace QuickLabs

/-! ### Correctness of the constant-time comparison -/

lemma or_eq_zero (a b : Nat) : a ||| b = 0 ↔ a = 0 ∧ b = 0 := by
  constructor
  · intro h
    constructor <;> apply Nat.eq_of_testBit_eq <;> intro i <;>
      · have hb := congrArg (fun n => Nat.testBit n i) h
        simp only [Nat.testBit_or, Nat.zero_testBit, Bool.or_eq_false_iff] at hb
        simp [hb.1, hb.2]
  · rintro ⟨rfl, rfl⟩; rfl

lemma foldl_or_eq_zero (l : List (Nat × Nat)) (a : Nat) :
    l.foldl (fun v p => v ||| (p.1 ^^^ p.2)) a = 0 ↔ a = 0 ∧ ∀ p ∈ l, p.1 ^^^ p.2 = 0 := by
  induction l generalizing a with
  | nil => simp
  | cons p ps ih =>
    simp only [List.foldl_cons, ih, or_eq_zero, List.mem_cons]
    constructor
    · rintro ⟨⟨h1, h2⟩, h3⟩
      exact ⟨h1, fun q hq => by rcases hq with rfl | hq; exacts [h2, h3 q hq]⟩
    · rintro ⟨h1, h2⟩
      exact ⟨⟨h1, h2 p (Or.inl rfl)⟩, fun q hq => h2 q (Or.inr hq)⟩

lemma foldl_or_lt (l : List (Nat × Nat)) :
    ∀ a : Nat, a < 2 ^ 31 → (∀ p ∈ l, p.1 < 2 ^ 31 ∧ p.2 < 2 ^ 31) →
    l.foldl (fun v p => v ||| (p.1 ^^^ p.2)) a < 2 ^ 31 := by
  induction l with
  | nil => intro a ha _; simpa using ha
  | cons p ps ih =>
    intro a ha hl
    simp only [List.foldl_cons]
    have hp := hl p (List.mem_cons_self p ps)
    exact ih _ (Nat.or_lt_two_pow ha (Nat.xor_lt_two_pow hp.1 hp.2))
      (fun q hq => hl q (List.mem_cons_of_mem p hq))

lemma constantTimeByteEq_zero_right (v : Nat) (h : v < 2 ^ 31) :
    constantTimeByteEq v 0 = if v = 0 then 1 else 0 := by
  unfold constantTimeByteEq
  rcases Nat.eq_zero_or_pos v with rfl | hv
  · decide
  · have hv1 : v ≠ 0 := by omega
    rw [if_neg hv1, Nat.xor_zero, Nat.shiftRight_eq_div_pow]
    have hmod : (v + (2 ^ 32 - 1)) % 2 ^ 32 = v - 1 := by omega
    rw [hmod]
    exact Nat.div_eq_of_lt (by omega)

lemma zip_xor_zero_eq (x : List Nat) : ∀ (y : List Nat), x.length = y.length →
    (∀ p ∈ x.zip y, p.1 ^^^ p.2 = 0) → x = y := by
  induction x with
  | nil => intro y hlen _; cases y with
    | nil => rfl
    | cons b bs => simp at hlen
  | cons a as ih =>
    intro y hlen hall
    cases y with
    | nil => simp at hlen
    | cons b bs =>
      have hab : a = b := Nat.xor_eq_zero.mp (hall (a, b) (by simp [List.zip_cons_cons]))
      have htl : as = bs := by
        apply ih bs (by simpa using hlen)
        intro p hp
        exact hall p (by simp [List.zip_cons_cons, hp])
      rw [hab, htl]

lemma zip_self_xor_zero (x : List Nat) : ∀ p ∈ x.zip x, p.1 ^^^ p.2 = 0 := by
  induction x with
  | nil => simp
  | cons a as ih =>
    intro p hp
    rcases (by simpa [List.zip_cons_cons] using hp : p = (a, a) ∨ p ∈ as.zip as) with rfl | hp'
    · simp
    · exact ih p hp'

/-- `ConstantTimeCompare` decides equality: on inputs whose elements are
below `2 ^ 31` (true of every byte, and of every Unicode scalar value),
it returns `1` exactly when the two sequences are equal. -/
lemma constantTimeCompare_eq_one_iff (x y : List Nat)
    (hx : ∀ b ∈ x, b < 2 ^ 31) (hy : ∀ b ∈ y, b < 2 ^ 31) :
    constantTimeCompare x y = 1 ↔ x = y := by
  unfold constantTimeCompare
  by_cases hlen : x.length = y.length
  · rw [if_neg (by simp [hlen])]
    have hbound : ∀ p ∈ x.zip y, p.1 < 2 ^ 31 ∧ p.2 < 2 ^ 31 := by
      intro p hp
      exact ⟨hx p.1 (List.of_mem_zip hp).1, hy p.2 (List.of_mem_zip hp).2⟩
    rw [constantTimeByteEq_zero_right _ (foldl_or_lt _ 0 (by norm_num) hbound)]
    by_cases hz : (x.zip y).foldl (fun v p => v ||| (p.1 ^^^ p.2)) 0 = 0
    · have hxy : x = y :=
        zip_xor_zero_eq x y hlen (((foldl_or_eq_zero _ 0).mp hz).2)
      rw [if_pos hz]
      simp [hxy]
    · have hxy : x ≠ y := by
        intro h
        subst h
        exact hz ((foldl_or_eq_zero _ 0).mpr ⟨rfl, zip_self_xor_zero x⟩)
      rw [if_neg hz]
      simp [hxy]
  · rw [if_pos (by simpa using hlen)]
    constructor
    · intro h; simp at h
    · intro h; exact absurd (congrArg List.length h) hlen

/-! ### Strings and their byte views -/

lemma char_toNat_lt (c : Char) : c.toNat < 2 ^ 31 := by
  have h := c.valid
  rcases h with h | ⟨_, h⟩ <;> simp [Char.toNat] <;> omega

lemma strBytes_lt (s : String) : ∀ b ∈ strBytes s, b < 2 ^ 31 := by
  intro b hb
  rcases List.mem_map.mp hb with ⟨c, _, rfl⟩
  exact char_toNat_lt c

lemma char_toNat_injective : Function.Injective Char.toNat := by
  intro a b h
  apply Char.ext
  apply UInt32.ext
  simpa [Char.toNat, UInt32.toNat] using h

lemma strBytes_inj (a b : String) : strBytes a = strBytes b ↔ a = b := by
  constructor
  · intro h
    have hl : a.toList = b.toList :=
      List.map_injective_iff.mpr char_toNat_injective h
    cases a; cases b
    simp only [String.toList] at hl
    exact congrArg String.mk hl
  · intro h; rw [h]

/-- The comparison the Authenticator performs accepts exactly when the
provided header value equals the configured secret. -/
lemma authCompare_eq_one (a b : String) :
    constantTimeCompare (strBytes a) (strBytes b) = 1 ↔ a = b := by
  rw [constantTimeCompare_eq_one_iff _ _ (strBytes_lt a) (strBytes_lt b)]
  exact strBytes_inj a b

end QuickLabs

namespace QuickLabs

/-! ### Service-level helper lemmas -/

/-- `authMiddleware` in closed form: run the wrapped handler on the
id-carrying request exactly when the extracted header value equals the
configured secret, otherwise write the 401. -/
lemma authMiddleware_eq (cfg : ConfigA) (rid : String)
    (next : Request → HandlerResult) (r : Request) :
    authMiddleware cfg rid next r =
      if headerGet r.headers "X-Auth-Key" = cfg.AuthKey then next (withRequestId rid r)
      else .ok (httpError "Unauthorized" 401) := by
  have hc := authCompare_eq_one (headerGet r.headers "X-Auth-Key") cfg.AuthKey
  by_cases h : headerGet r.headers "X-Auth-Key" = cfg.AuthKey
  · rw [if_pos h]
    unfold authMiddleware
    rw [if_neg (by simp [hc.mpr h])]
  · rw [if_neg h]
    unfold authMiddleware
    rw [if_pos (fun he => h (hc.mp he))]

lemma ctxValue_withRequestId (rid : String) (r : Request) :
    ctxValue (withRequestId rid r).ctx "request_id" = some rid := by
  simp [ctxValue, withRequestId, List.find?]

lemma headerGet_of_find_none (hs : List (String × String)) (k : String)
    (h : hs.find? (fun p => p.1 == k) = none) : headerGet hs k = "" := by
  simp [headerGet, h]

lemma loadConfigA_authKey_ne_empty (envPort envAuthKey : String) :
    (loadConfigA envPort envAuthKey).AuthKey ≠ "" := by
  unfold loadConfigA
  dsimp only
  split
  · simp
  · assumption

lemma ctLoop_steps (l : List (Nat × Nat)) : ∀ v : Nat, (ctLoop l v).2 = l.length := by
  induction l with
  | nil => intro v; rfl
  | cons p ps ih => intro v; simp [ctLoop, ih]

lemma ctLoop_fst (l : List (Nat × Nat)) : ∀ v : Nat,
    (ctLoop l v).1 = l.foldl (fun v p => v ||| (p.1 ^^^ p.2)) v := by
  induction l with
  | nil => intro v; rfl
  | cons p ps ih => intro v; simp [ctLoop, ih, List.foldl_cons]

/-- The instrumented comparison returns the same verdict as
`constantTimeCompare`. -/
lemma constantTimeCompareTimed_fst (x y : List Nat) :
    (constantTimeCompareTimed x y).1 = constantTimeCompare x y := by
  unfold constantTimeCompareTimed constantTimeCompare
  split
  · rfl
  · simp [ctLoop_fst]

/-- The loop-iteration count of the comparison is a function of the two
lengths alone. -/
lemma constantTimeCompareTimed_steps (x y : List Nat) :
    (constantTimeCompareTimed x y).2 =
      if x.length = y.length then x.length else 0 := by
  unfold constantTimeCompareTimed
  by_cases h : x.length = y.length
  · rw [if_neg (by simp [h]), if_pos h]
    simp [ctLoop_steps, List.length_zip, h]
  · rw [if_pos (by simpa using h), if_neg h]

end QuickLabs

namespace QuickLabs

/-! ### Concrete sample requests (used to instantiate the theorems) -/

/-- A `/process` request as service-b's mux delivers it: the inbound
context carries no `"request_id"` binding. -/
def sampleProcessReq : Request :=
  { method := "GET", path := "/process", headers := [],
    remoteAddr := "203.0.113.7:52144", ctx := [] }

/-- A `/health` request (no credentials). -/
def sampleHealthReq : Request :=
  { method := "GET", path := "/health", headers := [],
    remoteAddr := "203.0.113.7:52144", ctx := [] }

/-- A `/greet` request carrying the given `X-Auth-Key` header value. -/
def sampleGreetReq (key : String) : Request :=
  { method := "GET", path := "/greet", headers := [("X-Auth-Key", key)],
    remoteAddr := "203.0.113.7:52144", ctx := [] }

/-- A `/greet` request with no `X-Auth-Key` header at all. -/
def sampleGreetNoKeyReq : Request :=
  { method := "GET", path := "/greet", headers := [],
    remoteAddr := "203.0.113.7:52144", ctx := [] }

/-! ### The claims -/

/-- Claim C1 (code bug), evaluated at the failing input: the claim says
an upstream dispatch failure yields a caller-facing 503 (and a non-200
upstream status S yields S) with a plain-text body equal to the log
message, but on every such path `handleError`'s unchecked type assertion
on the missing `"request_id"` context value panics first, so the mapped
status code and error body are never written. -/
theorem c1_outbound_error_mapping_unreachable :
    serviceB_handle (loadConfigB "" "" "") "rid-1" 0 sampleProcessReq .dispatchError
      = .panicked nilStringAssertionMsg ∧
    serviceB_handle (loadConfigB "" "" "") "rid-1" 0 sampleProcessReq .dispatchError
      ≠ .ok (httpError "Failed to call Service A" 503) ∧
    serviceB_handle (loadConfigB "" "" "") "rid-1" 0 sampleProcessReq (.resp 404 (.bytes none))
      ≠ .ok (httpError "Service A request failed" 404) := by
  refine ⟨by decide, by decide, by decide⟩

/-- Claim C2, counterexample: the 401 written by `authMiddleware` on an
authentication failure is produced by `http.Error` and carries no
`X-Request-ID` header at all, so this failure response does not carry
the correlation id generated for the request ("rid-1" here). -/
theorem c2_correlation_counterexample :
    serviceA_handle ⟨"8080", "secret"⟩ "rid-1" 0 (sampleGreetReq "wrong")
      = .ok (httpError "Unauthorized" 401) ∧
    (httpError "Unauthorized" 401).headers
      = [("Content-Type", "text/plain; charset=utf-8"),
         ("X-Content-Type-Options", "nosniff")] ∧
    headerGet (httpError "Unauthorized" 401).headers "X-Request-ID" = "" := by
  refine ⟨by decide, by decide, by decide⟩

/-- Claim C2 as amended: the success (200) responses of `/greet` and
`/process` carry the correlation id generated for the request, unchanged,
in both the `X-Request-ID` response header and the body's `request_id`
field; the 401 authentication-failure response carries no correlation id
(see the counterexample), and `/health` responses carry it only in the
body. -/
theorem c2_correlation_amended (cfgA : ConfigA) (cfgB : ConfigB) (rid : String)
    (now : Nat) (ra rb : Request) (g : GreetBody)
    (hpa : ra.path = "/greet")
    (hauth : headerGet ra.headers "X-Auth-Key" = cfgA.AuthKey)
    (hpb : rb.path = "/process") :
    serviceA_handle cfgA rid now ra = .ok (greetOkResponse rid now) ∧
    headerGet (greetOkResponse rid now).headers "X-Request-ID" = rid ∧
    (greetOkResponse rid now).body
      = .greetJson { message := "Hello from Service A!", request_id := rid, timestamp := now } ∧
    serviceB_handle cfgB rid now rb (.resp 200 (.bytes (some g)))
      = .ok (processOkResponse g.message rid now) ∧
    headerGet (processOkResponse g.message rid now).headers "X-Request-ID" = rid ∧
    (processOkResponse g.message rid now).body
      = .processJson { service_a_message := g.message,
                       service_b_message := "Hello from Service B!",
                       request_id := rid, timestamp := now } ∧
    (healthResponse cfgA.Port rid now).body
      = .healthJson { status := "healthy", timestamp := now,
                      request_id := rid, server_port := cfgA.Port } := by
  refine ⟨?_, ?_, rfl, ?_, ?_, rfl, rfl⟩
  · simp [serviceA_handle, hpa, authMiddleware_eq, hauth, handleGreet,
      ctxValue_withRequestId]
  · simp [greetOkResponse, headerGet, List.find?]
  · simp [serviceB_handle, hpb, handleProcess]
  · simp [processOkResponse, headerGet, List.find?]

/-- Instantiation of the amended claim C2 at concrete inputs. -/
theorem c2_correlation_amended_witness :
    serviceA_handle ⟨"8080", "secret"⟩ "rid-2" 3 (sampleGreetReq "secret")
      = .ok (greetOkResponse "rid-2" 3) ∧
    headerGet (greetOkResponse "rid-2" 3).headers "X-Request-ID" = "rid-2" ∧
    (greetOkResponse "rid-2" 3).body
      = .greetJson { message := "Hello from Service A!", request_id := "rid-2", timestamp := 3 } ∧
    serviceB_handle ⟨"8081", "http://service-a:8080", "secret"⟩ "rid-2" 3 sampleProcessReq
      (.resp 200 (.bytes (some { message := "Hello from Service A!",
                                 request_id := "rid-upstream", timestamp := 2 })))
      = .ok (processOkResponse "Hello from Service A!" "rid-2" 3) ∧
    headerGet (processOkResponse "Hello from Service A!" "rid-2" 3).headers "X-Request-ID"
      = "rid-2" ∧
    (processOkResponse "Hello from Service A!" "rid-2" 3).body
      = .processJson { service_a_message := "Hello from Service A!",
                       service_b_message := "Hello from Service B!",
                       request_id := "rid-2", timestamp := 3 } ∧
    (healthResponse "8080" "rid-2" 3).body
      = .healthJson { status := "healthy", timestamp := 3,
                      request_id := "rid-2", server_port := "8080" } :=
  c2_correlation_amended ⟨"8080", "secret"⟩ ⟨"8081", "http://service-a:8080", "secret"⟩
    "rid-2" 3 (sampleGreetReq "secret") sampleProcessReq
    { message := "Hello from Service A!", request_id := "rid-upstream", timestamp := 2 }
    rfl (by decide) rfl

/-- Claim C3: `handleProcess` never attaches the `request_id`-bearing
context back onto the inbound request, so whenever the inbound context
has no `"request_id"` binding (which is what the mux delivers) and the
outbound call fails at any stage — construction, dispatch, non-200
status, body read, or body decode — the unchecked type assertion in
`handleError` hits a `nil` value and panics before any status code or
error body is written. -/
theorem c3_handle_error_panics (cfg : ConfigB) (rid : String) (now : Nat)
    (r : Request) (u : UpstreamOutcome)
    (hctx : ctxValue r.ctx "request_id" = none)
    (hu : isOutboundError u = true) :
    handleProcess cfg rid now r u = .panicked nilStringAssertionMsg := by
  cases u with
  | reqError => simp [handleProcess, handleError, hctx]
  | dispatchError => simp [handleProcess, handleError, hctx]
  | resp status bodyRead =>
    by_cases hs : status = 200
    · subst hs
      cases bodyRead with
      | readError => simp [handleProcess, handleError, hctx]
      | bytes parsed =>
        cases parsed with
        | none => simp [handleProcess, handleError, hctx]
        | some g => simp [isOutboundError] at hu
    · simp [handleProcess, handleError, hctx, hs]

/-- Instantiation of claim C3 at a concrete request-construction
failure. -/
theorem c3_handle_error_panics_witness :
    handleProcess (loadConfigB "" "" "") "rid-3" 9 sampleProcessReq .reqError
      = .panicked nilStringAssertionMsg :=
  c3_handle_error_panics (loadConfigB "" "" "") "rid-3" 9 sampleProcessReq .reqError
    (by decide) (by decide)

/-- Claim C4: for a `/greet` request whose `X-Auth-Key` header is
missing or differs from the configured secret (as loaded by `main`, so
never the empty string), the response is the 401 written by
`http.Error(w, "Unauthorized", 401)`, and — since the result is the same
for every wrapped handler `next` — the wrapped greeting handler never
runs and no success body is written. -/
theorem c4_auth_reject (envPort envAuthKey rid : String)
    (next : Request → HandlerResult) (r : Request)
    (h : r.headers.find? (fun p => p.1 == "X-Auth-Key") = none ∨
         headerGet r.headers "X-Auth-Key" ≠ (loadConfigA envPort envAuthKey).AuthKey) :
    authMiddleware (loadConfigA envPort envAuthKey) rid next r
      = .ok (httpError "Unauthorized" 401) := by
  rw [authMiddleware_eq]
  rcases h with h | h
  · rw [if_neg]
    rw [headerGet_of_find_none _ _ h]
    exact fun he => loadConfigA_authKey_ne_empty envPort envAuthKey he.symm
  · rw [if_neg h]

/-- Instantiation of claim C4: a missing header is rejected with 401
even though the wrapped handler would have produced a distinguishable
result. -/
theorem c4_auth_reject_witness :
    authMiddleware (loadConfigA "" "") "rid-4" (fun _ => .panicked "handler ran")
      sampleGreetNoKeyReq = .ok (httpError "Unauthorized" 401) :=
  c4_auth_reject "" "" "rid-4" (fun _ => .panicked "handler ran") sampleGreetNoKeyReq
    (Or.inl (by decide))

end QuickLabs

namespace QuickLabs

/-- Claim C5: a `/greet` request whose `X-Auth-Key` header equals the
configured secret gets status 200, and the `X-Request-ID` response
header equals the `request_id` field embedded in the JSON body (both are
the id minted for the request). -/
theorem c5_greet_success (cfg : ConfigA) (rid : String) (now : Nat) (r : Request)
    (hp : r.path = "/greet")
    (hauth : headerGet r.headers "X-Auth-Key" = cfg.AuthKey) :
    serviceA_handle cfg rid now r = .ok (greetOkResponse rid now) ∧
    (greetOkResponse rid now).status = 200 ∧
    headerGet (greetOkResponse rid now).headers "X-Request-ID" = rid ∧
    (greetOkResponse rid now).body
      = .greetJson { message := "Hello from Service A!", request_id := rid, timestamp := now } := by
  refine ⟨?_, rfl, ?_, rfl⟩
  · simp [serviceA_handle, hp, authMiddleware_eq, hauth, handleGreet,
      ctxValue_withRequestId]
  · simp [greetOkResponse, headerGet, List.find?]

/-- Instantiation of claim C5 with the compose-file secret. -/
theorem c5_greet_success_witness :
    serviceA_handle ⟨"8080", "service-a-secret-key"⟩ "rid-5" 42
      (sampleGreetReq "service-a-secret-key") = .ok (greetOkResponse "rid-5" 42) ∧
    (greetOkResponse "rid-5" 42).status = 200 ∧
    headerGet (greetOkResponse "rid-5" 42).headers "X-Request-ID" = "rid-5" ∧
    (greetOkResponse "rid-5" 42).body
      = .greetJson { message := "Hello from Service A!", request_id := "rid-5", timestamp := 42 } :=
  c5_greet_success ⟨"8080", "service-a-secret-key"⟩ "rid-5" 42
    (sampleGreetReq "service-a-secret-key") rfl (by decide)

/-- Claim C6: `maskAuthKey` returns the fixed 4-character mask `"****"`
for inputs of length at most 4, and for longer inputs keeps exactly the
first 2 and last 2 characters around the fixed mask, regardless of
content. -/
theorem c6_maskAuthKey_spec (key : List Nat) :
    (key.length ≤ 4 → maskAuthKey key = starMask) ∧
    (key.length > 4 →
      maskAuthKey key = key.take 2 ++ starMask ++ key.drop (key.length - 2) ∧
      (maskAuthKey key).take 2 = key.take 2 ∧
      (maskAuthKey key).drop ((maskAuthKey key).length - 2) = key.drop (key.length - 2) ∧
      ((maskAuthKey key).drop 2).take 4 = starMask) ∧
    starMask.length = 4 := by
  refine ⟨?_, ?_, by decide⟩
  · intro h
    unfold maskAuthKey
    rw [if_neg (by omega)]
  · intro h
    have hmask : maskAuthKey key = key.take 2 ++ starMask ++ key.drop (key.length - 2) := by
      unfold maskAuthKey
      rw [if_pos h]
    have htl : (key.take 2).length = 2 := by
      rw [List.length_take]; omega
    have hdl : (key.drop (key.length - 2)).length = 2 := by
      rw [List.length_drop]; omega
    obtain ⟨a, b, hab⟩ := List.length_eq_two.mp htl
    obtain ⟨c, e, hce⟩ := List.length_eq_two.mp hdl
    refine ⟨hmask, ?_, ?_, ?_⟩
    · rw [hmask, hab]
      rfl
    · rw [hmask, hab, hce]
      rfl
    · rw [hmask, hab, hce]
      rfl

/-- Instantiation of claim C6 on both branches of the masking. -/
theorem c6_maskAuthKey_spec_witness :
    maskAuthKey (strBytes "abcd") = starMask ∧
    maskAuthKey (strBytes "service-a-secret-key")
      = (strBytes "service-a-secret-key").take 2 ++ starMask
        ++ (strBytes "service-a-secret-key").drop ((strBytes "service-a-secret-key").length - 2) :=
  ⟨(c6_maskAuthKey_spec (strBytes "abcd")).1 (by decide),
   ((c6_maskAuthKey_spec (strBytes "service-a-secret-key")).2.1 (by decide)).1⟩

/-- Claim C7: when the upstream call returns a 200 whose body decodes as
a Greeting Response `g`, the `/process` response is a 200 whose JSON
body combines the upstream message (`service_a_message`) with the fixed
local message `"Hello from Service B!"` (`service_b_message`), the
request's correlation id, and a timestamp. -/
theorem c7_process_success (cfg : ConfigB) (rid : String) (now : Nat)
    (r : Request) (g : GreetBody) (hp : r.path = "/process") :
    serviceB_handle cfg rid now r (.resp 200 (.bytes (some g)))
      = .ok (processOkResponse g.message rid now) ∧
    (processOkResponse g.message rid now).status = 200 ∧
    (processOkResponse g.message rid now).body
      = .processJson { service_a_message := g.message,
                       service_b_message := "Hello from Service B!",
                       request_id := rid, timestamp := now } := by
  refine ⟨?_, rfl, rfl⟩
  simp [serviceB_handle, hp, handleProcess]

/-- Instantiation of claim C7 at a concrete decoded upstream body. -/
theorem c7_process_success_witness :
    serviceB_handle (loadConfigB "" "" "") "rid-7" 11 sampleProcessReq
      (.resp 200 (.bytes (some { message := "Hello from Service A!",
                                 request_id := "rid-up", timestamp := 10 })))
      = .ok (processOkResponse "Hello from Service A!" "rid-7" 11) ∧
    (processOkResponse "Hello from Service A!" "rid-7" 11).status = 200 ∧
    (processOkResponse "Hello from Service A!" "rid-7" 11).body
      = .processJson { service_a_message := "Hello from Service A!",
                       service_b_message := "Hello from Service B!",
                       request_id := "rid-7", timestamp := 11 } :=
  c7_process_success (loadConfigB "" "" "") "rid-7" 11 sampleProcessReq
    { message := "Hello from Service A!", request_id := "rid-up", timestamp := 10 } rfl

/-- Claim C8: on either service a `/health` request always yields 200
with a payload made of the fresh correlation id, the current timestamp
and the configured listen port; the handler checks no credential (the
result is the same for any header list) and performs no outbound call
(the result is the same for any upstream outcome). -/
theorem c8_health_spec (cfgA : ConfigA) (cfgB : ConfigB) (rid : String) (now : Nat)
    (r : Request) (hs : List (String × String)) (u u' : UpstreamOutcome)
    (hp : r.path = "/health") :
    serviceA_handle cfgA rid now { r with headers := hs }
      = .ok (healthResponse cfgA.Port rid now) ∧
    serviceB_handle cfgB rid now r u = .ok (healthResponse cfgB.Port rid now) ∧
    serviceB_handle cfgB rid now r u = serviceB_handle cfgB rid now r u' ∧
    (healthResponse cfgA.Port rid now).status = 200 ∧
    (healthResponse cfgA.Port rid now).body
      = .healthJson { status := "healthy", timestamp := now,
                      request_id := rid, server_port := cfgA.Port } := by
  have hA : serviceA_handle cfgA rid now { r with headers := hs }
      = .ok (healthResponse cfgA.Port rid now) := by
    simp [serviceA_handle, hp, handleHealth]
  have hB : ∀ v : UpstreamOutcome,
      serviceB_handle cfgB rid now r v = .ok (healthResponse cfgB.Port rid now) := by
    intro v
    simp [serviceB_handle, hp, handleHealth]
  exact ⟨hA, hB u, (hB u).trans (hB u').symm, rfl, rfl⟩

/-- Instantiation of claim C8 at concrete inputs. -/
theorem c8_health_spec_witness :
    serviceA_handle ⟨"8080", "secret"⟩ "rid-8" 5
      { sampleHealthReq with headers := [("X-Auth-Key", "whatever")] }
      = .ok (healthResponse "8080" "rid-8" 5) ∧
    serviceB_handle ⟨"8081", "http://service-a:8080", "secret"⟩ "rid-8" 5 sampleHealthReq
      .dispatchError = .ok (healthResponse "8081" "rid-8" 5) ∧
    serviceB_handle ⟨"8081", "http://service-a:8080", "secret"⟩ "rid-8" 5 sampleHealthReq
        .dispatchError
      = serviceB_handle ⟨"8081", "http://service-a:8080", "secret"⟩ "rid-8" 5 sampleHealthReq
        .reqError ∧
    (healthResponse "8080" "rid-8" 5).status = 200 ∧
    (healthResponse "8080" "rid-8" 5).body
      = .healthJson { status := "healthy", timestamp := 5,
                      request_id := "rid-8", server_port := "8080" } :=
  c8_health_spec ⟨"8080", "secret"⟩ ⟨"8081", "http://service-a:8080", "secret"⟩ "rid-8" 5
    sampleHealthReq [("X-Auth-Key", "whatever")] .dispatchError .reqError rfl

/-- Claim C9: the credential comparison is timing-safe in the
instruction-count model: the number of comparison-loop iterations
executed by `ConstantTimeCompare` depends only on the lengths of the two
inputs, never on their contents — in particular not on the position of
the first mismatching byte — and the instrumented comparison computes
the same verdict as `constantTimeCompare`. -/
theorem c9_timing_safety (x y z w : List Nat)
    (hx : x.length = z.length) (hy : y.length = w.length) :
    (constantTimeCompareTimed x y).2 = (constantTimeCompareTimed z w).2 ∧
    (constantTimeCompareTimed x y).1 = constantTimeCompare x y := by
  refine ⟨?_, constantTimeCompareTimed_fst x y⟩
  rw [constantTimeCompareTimed_steps, constantTimeCompareTimed_steps, hx, hy]

/-- Instantiation of claim C9: a first-byte mismatch and a last-byte
mismatch cost the same number of loop iterations. -/
theorem c9_timing_safety_witness :
    (constantTimeCompareTimed (strBytes "secret") (strBytes "Xecret")).2
      = (constantTimeCompareTimed (strBytes "secret") (strBytes "secreX")).2 ∧
    (constantTimeCompareTimed (strBytes "secret") (strBytes "Xecret")).1
      = constantTimeCompare (strBytes "secret") (strBytes "Xecret") :=
  c9_timing_safety (strBytes "secret") (strBytes "Xecret")
    (strBytes "secret") (strBytes "secreX") (by decide) (by decide)

/-- Claim C10: the Authenticator's acceptance depends only on equality
of the extracted header value (which is `""` both for a missing header
and for an explicitly empty one) with the configured secret; in
particular, with an empty configured secret a request with no credential
header is accepted and the wrapped handler runs on the id-carrying
request. -/
theorem c10_auth_equality_only (cfg : ConfigA) (rid : String)
    (next : Request → HandlerResult) (r : Request) :
    (authMiddleware cfg rid next r =
      if headerGet r.headers "X-Auth-Key" = cfg.AuthKey then next (withRequestId rid r)
      else .ok (httpError "Unauthorized" 401)) ∧
    (cfg.AuthKey = "" → r.headers.find? (fun p => p.1 == "X-Auth-Key") = none →
      authMiddleware cfg rid next r = next (withRequestId rid r)) := by
  refine ⟨authMiddleware_eq cfg rid next r, ?_⟩
  intro hk hn
  rw [authMiddleware_eq, if_pos]
  rw [headerGet_of_find_none _ _ hn, hk]

/-- Instantiation of claim C10: with an empty configured secret, a
request with no `X-Auth-Key` header reaches the wrapped handler. -/
theorem c10_auth_equality_only_witness :
    authMiddleware ⟨"8080", ""⟩ "rid-10" (fun rq => .ok (httpError rq.method 200))
      sampleGreetNoKeyReq = .ok (httpError "GET" 200) :=
  (c10_auth_equality_only ⟨"8080", ""⟩ "rid-10" (fun rq => .ok (httpError rq.method 200))
    sampleGreetNoKeyReq).2 rfl (by decide)

end QuickLabs
